import Mathlib

/-!
Shallow embedding of the usac-velodata fetch-and-extract pipeline
(src/usac_velodata/parser.py) and proofs about the frozen claims.

Python strings are Lean String, machine integers are Nat/Int, floats
(retry delays, timestamps) are Rat, fallible code returns Except/Option.
-/

/-! ## String helpers (Python str methods used by the parser) -/

/-- Substring occurrence test on character lists. -/
def hasSubList (hay sub : List Char) : Bool :=
  match hay with
  | [] => sub.isEmpty
  | _ :: t => sub.isPrefixOf hay || hasSubList t sub

/-- Python `sub in s` substring containment. -/
def containsSub (s sub : String) : Bool :=
  hasSubList s.toList sub.toList

/-- Drop leading whitespace characters. -/
def stripLeft : List Char → List Char
  | [] => []
  | c :: t => if c.isWhitespace then stripLeft t else c :: t

/-- Python str.strip(): remove leading and trailing whitespace. -/
def pyStrip (s : String) : String :=
  String.mk ((stripLeft (stripLeft s.toList).reverse).reverse)

/-- Python str.isdigit(): nonempty and all decimal digits. -/
def pyIsdigit (s : String) : Bool :=
  !s.toList.isEmpty && s.toList.all Char.isDigit

/-- Numeric value of a decimal digit string. -/
def digitsToNat (s : String) : Nat :=
  s.toList.foldl (fun a c => a * 10 + (c.toNat - 48)) 0

/-- Python str.lower() restricted to ASCII, as used on category names. -/
def pyLower (s : String) : String :=
  String.mk (s.toList.map Char.toLower)

/-- Python int(str): strip, optional sign, all digits; None on ValueError. -/
def pyInt (s : String) : Option Int :=
  let cs := (pyStrip s).toList
  let digitsVal : List Char → Option Nat := fun l =>
    if l.isEmpty || !l.all Char.isDigit then none
    else some (l.foldl (fun a c => a * 10 + (c.toNat - 48)) 0)
  match cs with
  | '+' :: rest => (digitsVal rest).map Int.ofNat
  | '-' :: rest => (digitsVal rest).map (fun n => -(n : Int))
  | rest => (digitsVal rest).map Int.ofNat

/-- Characters before the first occurrence of a given character. -/
def takeUntilChar (c : Char) : List Char → List Char
  | [] => []
  | x :: t => if x = c then [] else x :: takeUntilChar c t

/-- BaseParser._extract_text applied to an element whose stripped text is s:
if the text contains a literal angle bracket, keep only the part before it. -/
def extractTextS (s : String) : String :=
  if containsSub s "<" then String.mk (takeUntilChar '<' s.toList) else s

/-! ## Transport and the Retry/Backoff Controller
(BaseParser._fetch_with_retries, parser.py lines 163-229) -/

/-- One raw HTTP response as observed by the retry loop: status code,
optional Retry-After header, body text. -/
structure TResponse where
  status : Nat
  retryAfter : Option String
  text : String
deriving DecidableEq, Repr

/-- Outcome of a single transport invocation: a response, or a raised
requests.RequestException (connection error, timeout, ...). -/
inductive TransportOutcome where
  | resp (r : TResponse)
  | exc
deriving DecidableEq, Repr

/-- How one call of _fetch_with_retries terminates. -/
inductive FetchOutcome where
  /-- A response was returned to the caller. -/
  | success (r : TResponse)
  /-- NetworkError raised; carries the URL and the attempt count that appear
  in its message. -/
  | networkError (url : String) (attempts : Nat)
  /-- Uncaught AttributeError: the Retry-After fallback value is the float
  retry_delay * 2, which has no isdigit method. -/
  | attributeError
  /-- The for-loop over range(max_retries) completed; the function body ends
  and Python implicitly returns None. -/
  | returnedNone
deriving DecidableEq, Repr

/-- The loop of _fetch_with_retries from a given attempt index, with
fuel = max_retries - attempt.  Returns the outcome, the number of transport
invocations performed, and the list of sleeps executed (seconds). -/
def runFrom (url : String) (maxRetries : Nat) (retryDelay : Rat)
    (transport : Nat → TransportOutcome) : Nat → Nat → FetchOutcome × Nat × List Rat
  | _, 0 => (.returnedNone, 0, [])
  | attempt, fuel + 1 =>
    match transport attempt with
    | .exc =>
      if (attempt : Int) < (maxRetries : Int) - 1 then
        let r := runFrom url maxRetries retryDelay transport (attempt + 1) fuel
        (r.1, r.2.1 + 1, retryDelay * 2 ^ attempt :: r.2.2)
      else
        (.networkError url maxRetries, 1, [])
    | .resp resp =>
      if resp.status = 429 then
        match resp.retryAfter with
        | none => (.attributeError, 1, [])
        | some v =>
          let slp := if pyIsdigit v then ((digitsToNat v : Nat) : Rat) else retryDelay * 2
          let r := runFrom url maxRetries retryDelay transport (attempt + 1) fuel
          (r.1, r.2.1 + 1, slp :: r.2.2)
      else if 400 ≤ resp.status then
        if (attempt : Int) < (maxRetries : Int) - 1 then
          let r := runFrom url maxRetries retryDelay transport (attempt + 1) fuel
          (r.1, r.2.1 + 1, retryDelay * 2 ^ attempt :: r.2.2)
        else
          (.networkError url maxRetries, 1, [])
      else
        (.success resp, 1, [])

/-- BaseParser._fetch_with_retries: drive the transport for at most
max_retries attempts.  The transport function is indexed by invocation
number (0-based); each loop iteration performs exactly one invocation. -/
def fetchWithRetries (url : String) (maxRetries : Nat) (retryDelay : Rat)
    (transport : Nat → TransportOutcome) : FetchOutcome × Nat × List Rat :=
  runFrom url maxRetries retryDelay transport 0 maxRetries

/-! ## Dates and timestamps
(datetime is modelled by Rat epoch timestamps; datetime.date by a triple) -/

/-- A Python datetime.date value.  The constructor validation lives in
validDate below. -/
structure PyDate where
  year : Nat
  month : Nat
  day : Nat
deriving DecidableEq, Repr

/-- Days in a month of the proleptic Gregorian calendar. -/
def daysInMonth (y m : Nat) : Nat :=
  if m = 2 then
    if y % 4 = 0 && (y % 100 ≠ 0 || y % 400 = 0) then 29 else 28
  else if m = 4 || m = 6 || m = 9 || m = 11 then 30
  else 31

/-- datetime.date(y, m, d) succeeds exactly under these bounds. -/
def validDate (y m d : Nat) : Bool :=
  1 ≤ y && y ≤ 9999 && 1 ≤ m && m ≤ 12 && 1 ≤ d && d ≤ daysInMonth y m

/-- Days since the Unix epoch of a civil date (years 1..9999). -/
def daysFromCivil (y m d : Nat) : Int :=
  let y' : Int := if m ≤ 2 then (y : Int) - 1 else (y : Int)
  let era : Int := y' / 400
  let yoe : Int := y' - era * 400
  let mp : Int := if m > 2 then (m : Int) - 3 else (m : Int) + 9
  let doy : Int := (153 * mp + 2) / 5 + (d : Int) - 1
  let doe : Int := yoe * 365 + yoe / 4 - yoe / 100 + doy
  era * 146097 + doe - 719468

/-- Epoch timestamp (seconds) of a date plus time of day. -/
def timestampOf (y m d h mi s : Nat) (frac : Rat) : Rat :=
  (daysFromCivil y m d : Rat) * 86400 + (h : Rat) * 3600 + (mi : Rat) * 60 + (s : Rat) + frac

/-- Read exactly n decimal digits from the front of a character list. -/
def readDigits : Nat → List Char → Option (Nat × List Char)
  | 0, cs => some (0, cs)
  | n + 1, c :: cs =>
    if c.isDigit then
      match readDigits n cs with
      | some (v, rest) => some ((c.toNat - 48) * 10 ^ n + v, rest)
      | none => none
    else none
  | _ + 1, [] => none

/-- Expect one literal character. -/
def readChar (c : Char) : List Char → Option (List Char)
  | x :: cs => if x = c then some cs else none
  | [] => none

/-- datetime.fromisoformat restricted to the shapes this cache ever wrote:
YYYY-MM-DD optionally followed by a T or space separator, HH:MM:SS, and an
optional fractional-second part.  Returns the epoch timestamp. -/
def isoParse (str : String) : Option Rat :=
  let cs := str.toList
  match readDigits 4 cs with
  | none => none
  | some (y, cs) =>
  match readChar '-' cs with
  | none => none
  | some cs =>
  match readDigits 2 cs with
  | none => none
  | some (m, cs) =>
  match readChar '-' cs with
  | none => none
  | some cs =>
  match readDigits 2 cs with
  | none => none
  | some (d, cs) =>
  if !validDate y m d then none
  else match cs with
  | [] => some (timestampOf y m d 0 0 0 0)
  | sep :: cs =>
    if sep ≠ 'T' && sep ≠ ' ' then none
    else match readDigits 2 cs with
    | none => none
    | some (h, cs) =>
    match readChar ':' cs with
    | none => none
    | some cs =>
    match readDigits 2 cs with
    | none => none
    | some (mi, cs) =>
    match readChar ':' cs with
    | none => none
    | some cs =>
    match readDigits 2 cs with
    | none => none
    | some (s, cs) =>
    if h ≥ 24 || mi ≥ 60 || s ≥ 60 then none
    else match cs with
    | [] => some (timestampOf y m d h mi s 0)
    | '.' :: frac =>
      if frac.isEmpty || frac.length > 6 || !frac.all Char.isDigit then none
      else
        some (timestampOf y m d h mi s
          ((frac.foldl (fun a c => a * 10 + (c.toNat - 48)) 0 : Nat) / (10 ^ frac.length : Nat)))
    | _ => none

/-! ## The Response Cache
(BaseParser._get_cache_path / _get_from_cache / _save_to_cache,
parser.py lines 78-161) -/

/-- A rider-results record as assembled by fetch_race_results:
id, race name, and one assoc list per rider (dict insertion order). -/
structure RaceShape where
  id : String
  name : String
  riders : List (List (String × String))
deriving DecidableEq, Repr

/-- A JSON-safe Python value as stored in a cache file.  raceShape covers
the parsed result dict that fetch_race_results caches. -/
inductive JVal where
  | num (q : Rat)
  | str (s : String)
  | boolean (b : Bool)
  | null
  | arr
  | obj
  | raceShape (s : RaceShape)
  /-- A dict in the legacy race-results envelope form: its d member when it
  is a string, none when the key is missing. -/
  | dEnvelope (d : Option String)
deriving DecidableEq, Repr

/-- One cache file as written by _save_to_cache: the url, the write time
(serialized as an ISO string), the expiry, and the payload.  expires_at is
kept as a raw JSON value because old cache files may hold an ISO string, a
number, or garbage; none models a file without the key. -/
structure CEntry where
  url : String
  cachedAt : Rat
  expiresAt : Option JVal
  response : JVal
deriving DecidableEq, Repr

/-- A cache file on disk is either valid JSON or corrupt. -/
inductive CacheFile where
  | valid (e : CEntry)
  | corrupt
deriving DecidableEq, Repr

/-- The cache directory: a map from file path to file content. -/
def CacheStore : Type := String → Option CacheFile

/-- The empty cache directory. -/
def emptyStore : CacheStore := fun _ => none

/-- Hex digit characters (uppercase, as urllib.parse.quote emits). -/
def hexChar (n : Nat) : Char :=
  if n < 10 then Char.ofNat (48 + n) else Char.ofNat (55 + n)

/-- UTF-8 bytes of a code point. -/
def utf8Bytes (n : Nat) : List Nat :=
  if n < 128 then [n]
  else if n < 2048 then [192 + n / 64, 128 + n % 64]
  else if n < 65536 then [224 + n / 4096, 128 + (n / 64) % 64, 128 + n % 64]
  else [240 + n / 262144, 128 + (n / 4096) % 64, 128 + (n / 64) % 64, 128 + n % 64]

/-- urllib.parse.quote(s, safe=""): percent-encode everything but the
unreserved characters. -/
def pctQuote (s : String) : String :=
  String.mk (s.toList.flatMap fun c =>
    if c.isAlphanum || c = '_' || c = '.' || c = '-' || c = '~' then [c]
    else (utf8Bytes c.toNat).flatMap fun b => ['%', hexChar (b / 16), hexChar (b % 16)])

/-- BaseParser._get_cache_path: filesystem-safe file name for a cache key. -/
def cachePath (key : String) : String :=
  pctQuote key ++ ".json"

/-- Python exception classes that matter to the cache reader. -/
inductive PyExc where
  | jsonDecodeError
  | keyError
  | valueError
  | typeError
  /-- A timestamp that does not fit the platform time_t. -/
  | overflowError
  /-- localtime failing on a timestamp whose year does not fit struct tm. -/
  | osError
deriving DecidableEq, Repr

/-- Python float(v) on a non-string JSON value: numbers and booleans
convert, null and containers raise TypeError. -/
def pyFloatNonStr : JVal → Except PyExc Rat
  | .num q => .ok q
  | .boolean b => .ok (if b then 1 else 0)
  | .null => .error .typeError
  | .arr => .error .typeError
  | .obj => .error .typeError
  | .raceShape _ => .error .typeError
  | .dEnvelope _ => .error .typeError
  | .str _ => .error .typeError

/-- datetime timestamp bound: the first second of year 1 (UTC model);
equals daysFromCivil 1 1 1 * 86400 (see datetimeMinTs_eq). -/
def datetimeMinTs : Rat := -62135596800

/-- datetime timestamp bound: the last second of year 9999 (UTC model);
equals daysFromCivil 9999 12 31 * 86400 + 86399 (see datetimeMaxTs_eq). -/
def datetimeMaxTs : Rat := 253402300799

/-- The last timestamp glibc localtime can convert: struct tm stores
year - 1900 in a C int, so conversion fails past year 2^31 - 1 + 1900
(see localtimeBound_eq).  The negative side is modelled symmetrically. -/
def localtimeBound : Rat := 67768036191676799

/-- Magnitude past which a timestamp no longer fits a 64-bit time_t. -/
def timeTBound : Rat := 9223372036854775808

/-- datetime.fromtimestamp on this platform (64-bit Linux/glibc, timezone
fixed to UTC): it is partial, not total.  A value outside time_t raises
OverflowError; one localtime cannot convert raises OSError; one whose year
falls outside 1..9999 raises ValueError; only the rest convert. -/
def pyFromtimestamp (ts : Rat) : Except PyExc Rat :=
  if ts ≥ timeTBound ∨ ts < -timeTBound then .error .overflowError
  else if ts > localtimeBound ∨ ts < -localtimeBound then .error .osError
  else if ts > datetimeMaxTs ∨ ts < datetimeMinTs then .error .valueError
  else .ok ts

/-- The body of the try block of _get_from_cache: load the file, check
expiry.  An ISO-string expiry that fails to parse returns None directly
(the inner except); a non-convertible non-string expiry raises TypeError;
a numeric expiry goes through fromtimestamp, which can itself raise. -/
def getFromCacheBody (store : CacheStore) (now : Rat) (key : String) :
    Except PyExc (Option CEntry) :=
  match store (cachePath key) with
  | none => .ok none
  | some .corrupt => .error .jsonDecodeError
  | some (.valid e) =>
    match e.expiresAt with
    | none => .ok (some e)
    | some (.str s) =>
      match isoParse s with
      | none => .ok none
      | some ts => if now > ts then .ok none else .ok (some e)
    | some v =>
      match pyFloatNonStr v with
      | .error exc => .error exc
      | .ok f =>
        match pyFromtimestamp f with
        | .error exc => .error exc
        | .ok ts => if now > ts then .ok none else .ok (some e)

/-- The exception classes caught by _get_from_cache's outer except clause:
OverflowError and OSError are not in the tuple and propagate. -/
def caughtByCacheRead : PyExc → Bool
  | .jsonDecodeError => true
  | .keyError => true
  | .valueError => true
  | .typeError => true
  | .overflowError => false
  | .osError => false

/-- BaseParser._get_from_cache: read a cache entry, treating a caught
exception as a miss. -/
def getFromCache (cacheEnabled : Bool) (store : CacheStore) (now : Rat)
    (key : String) : Except PyExc (Option CEntry) :=
  if !cacheEnabled then .ok none
  else
    match getFromCacheBody store now key with
    | .ok r => .ok r
    | .error e => if caughtByCacheRead e then .ok none else .error e

/-- BaseParser._save_to_cache: overwrite the entry for a key; the expiry is
stored as the numeric timestamp now + expire_seconds. -/
def saveToCache (cacheEnabled : Bool) (store : CacheStore) (now : Rat)
    (key : String) (data : JVal) (expireSeconds : Rat) : CacheStore :=
  if !cacheEnabled then store
  else fun p =>
    if p = cachePath key then
      some (.valid ⟨key, now, some (.num (now + expireSeconds)), data⟩)
    else store p

/-! ## Content fetching (BaseParser._fetch_content, parser.py lines 231-279) -/

/-- The blocked-page detector applied to a response body. -/
def blockedBody (s : String) : Bool :=
  containsSub s "Invalid user access" && containsSub s "malicious"

/-- Truthiness of the params dict, as tested by the `if params` guards. -/
def paramsTruthy : Option (List (String × String)) → Bool
  | none => false
  | some ps => !ps.isEmpty

/-- The cache key computed at the top of _fetch_content: the URL, plus the
joined key=value pairs in dict iteration (insertion) order when params is
truthy. -/
def cacheKeyOf (url : String) (params : Option (List (String × String))) : String :=
  if paramsTruthy params then
    url ++ "?" ++ String.intercalate "&"
      ((params.getD []).map fun kv => kv.1 ++ "=" ++ kv.2)
  else url

/-- The key passed to _save_to_cache on a successful fetch:
cache_key if params else url. -/
def writeKeyOf (url : String) (params : Option (List (String × String))) : String :=
  if paramsTruthy params then cacheKeyOf url params else url

/-- How one call of _fetch_content terminates. -/
inductive ContentResult where
  /-- The body (or the cached payload) was returned. -/
  | content (v : JVal)
  /-- IPBlockedError raised and re-raised past the except clause. -/
  | ipBlocked (url : String)
  /-- NetworkError raised (either propagated from the retry layer and
  re-wrapped, or wrapping any other exception). -/
  | netError
  /-- An exception escaped the cache read before the try block. -/
  | raised (e : PyExc)
deriving DecidableEq, Repr

/-- Result record of a _fetch_content run: the outcome, the cache directory
afterwards, and how many transport invocations happened. -/
structure ContentRun where
  result : ContentResult
  store : CacheStore
  invocations : Nat

/-- BaseParser._fetch_content: consult the cache, else fetch with retries,
detect the blocked page, cache the body, return it.  Every exception other
than IPBlockedError is converted to NetworkError by the except clause. -/
def fetchContent (cacheEnabled : Bool) (store : CacheStore) (now : Rat)
    (url : String) (params : Option (List (String × String)))
    (maxRetries : Nat) (retryDelay : Rat)
    (transport : Nat → TransportOutcome) : ContentRun :=
  let key := cacheKeyOf url params
  let fetchCore : ContentRun :=
    match fetchWithRetries url maxRetries retryDelay transport with
    | (.success r, n, _) =>
      if blockedBody r.text then ⟨.ipBlocked url, store, n⟩
      else
        let store' := saveToCache cacheEnabled store now (writeKeyOf url params) (.str r.text) 3600
        ⟨.content (.str r.text), store', n⟩
    | (.networkError _ _, n, _) => ⟨.netError, store, n⟩
    | (.attributeError, n, _) => ⟨.netError, store, n⟩
    | (.returnedNone, n, _) => ⟨.netError, store, n⟩
  if cacheEnabled then
    match getFromCache true store now key with
    | .ok (some e) => ⟨.content e.response, store, 0⟩
    | .ok none => fetchCore
    | .error exc => ⟨.raised exc, store, 0⟩
  else fetchCore

/-! ## Parsed-document abstraction
BeautifulSoup is external; a response document is represented by the results
of the selector queries the extractors perform on it. -/

/-- An anchor element: its stripped text and its href attribute. -/
structure ALink where
  text : String
  href : Option String
deriving DecidableEq, Repr

/-- A table cell (td or div.tablecell.results): its stripped text and the
first anchor inside it, if any. -/
structure TCell where
  text : String
  link : Option ALink
deriving DecidableEq, Repr

/-- A tr row of the event-list datatable. -/
structure TRow where
  cells : List TCell
deriving DecidableEq, Repr

/-- A div.tablerow of the race-results grid: its class list and its
div.tablecell.results children. -/
structure DivRow where
  classes : List String
  cells : List TCell
deriving DecidableEq, Repr

/-- The legacy table.results-table shape: thead th texts and tbody rows. -/
structure LegacyTable where
  headers : List String
  rows : List (List String)
deriving DecidableEq, Repr

/-- The selector view of one parsed HTML document. -/
structure HtmlDoc where
  /-- find("table", class_="datatable") as its tr rows. -/
  datatable : Option (List TRow) := none
  /-- select("div.tablerow"). -/
  tablerows : List DivRow := []
  /-- select("div.tablecell.header") stripped texts. -/
  headerCells : List String := []
  /-- select_one("h4.race-title") stripped text. -/
  raceTitle : Option String := none
  /-- select_one("span.race-name") stripped text. -/
  raceName : Option String := none
  /-- select_one("table.results-table"). -/
  resultsTable : Option LegacyTable := none
deriving DecidableEq, Repr

/-- The message / d members of a decoded JSON envelope. -/
structure JsonEnvelope where
  message : Option String := none
  d : Option String := none
deriving DecidableEq, Repr

/-- The two external text interpreters the pipeline calls: BeautifulSoup
(domOf) and json.loads (jsonOf, none when decoding raises). -/
structure DomEnv where
  domOf : String → HtmlDoc
  jsonOf : String → Option JsonEnvelope

/-- _extract_text on an optional element with stripped text. -/
def extractTextO : Option String → String
  | none => ""
  | some s => extractTextS s

/-- _extract_text on an optional cell element. -/
def extractTextC (c : Option TCell) : String :=
  extractTextO (c.map TCell.text)

/-- Python str.startswith, over character lists so that proofs can
evaluate it. -/
def pyStartsWith (s pre : String) : Bool :=
  pre.toList.isPrefixOf s.toList

/-- Python str.split on a single-character separator. -/
def splitChar (sep : Char) : List Char → List (List Char)
  | [] => [[]]
  | c :: t =>
    let r := splitChar sep t
    if c = sep then [] :: r
    else
      match r with
      | h :: t2 => (c :: h) :: t2
      | [] => [[c]]

/-- Python location.split(",") as strings. -/
def pySplitComma (s : String) : List String :=
  (splitChar ',' s.toList).map String.mk

/-! ## URL construction (BaseParser class constants and builders) -/

/-- Split a character list at the first occurrence of a separator. -/
def splitAtSub (hay sep : List Char) : Option (List Char × List Char) :=
  match hay with
  | [] => if sep.isEmpty then some ([], []) else none
  | c :: t =>
    if sep.isPrefixOf hay then some ([], hay.drop sep.length)
    else match splitAtSub t sep with
      | some (pre, post) => some (c :: pre, post)
      | none => none

/-- scheme://host of an absolute URL. -/
def urlRoot (s : String) : String :=
  match splitAtSub s.toList "://".toList with
  | none => s
  | some (pre, post) => String.mk (pre ++ "://".toList ++ takeUntilChar '/' post)

/-- urllib.parse.urljoin for the reference shapes this code produces. -/
def pyUrljoin (base rel : String) : String :=
  if rel = "" then base
  else if pyStartsWith rel "http://" || pyStartsWith rel "https://" then rel
  else if pyStartsWith rel "/" then urlRoot base ++ rel
  else urlRoot base ++ "/" ++ rel

/-- BaseParser.BASE_URL. -/
def BASE_URL : String := "https://legacy.usacycling.org"

/-- BaseParser.RESULTS_URL. -/
def RESULTS_URL : String := pyUrljoin BASE_URL "/results/"

/-- BaseParser.API_URL. -/
def API_URL : String := pyUrljoin BASE_URL "/results/index.php"

/-- BaseParser._build_race_results_url. -/
def buildRaceResultsUrl (raceId : String) : String :=
  API_URL ++ "?ajax=1&act=loadresults&race_id=" ++ raceId

/-! ## Small regular-expression searches used by the extractors -/

/-- A regex word character. -/
def isWordChar (c : Char) : Bool :=
  c.isAlphanum || c = '_'

/-- Does word w match at the head of cs with a word boundary after it? -/
def wordAt (cs w : List Char) : Bool :=
  w.isPrefixOf cs &&
    (match cs.drop w.length with
     | [] => true
     | c :: _ => !isWordChar c)

/-- re.search of the gender pattern (word Men or Women) over a name. -/
def genderScanAux : List Char → Bool → Option String
  | [], _ => none
  | cs@(c :: t), atBoundary =>
    if atBoundary && wordAt cs "Men".toList then some "Men"
    else if atBoundary && wordAt cs "Women".toList then some "Women"
    else genderScanAux t (!isWordChar c)

/-- Gender annotation mined from a category name. -/
def genderScan (s : String) : Option String :=
  genderScanAux s.toList true

/-- re.search of the category-rank pattern: the word Category, one or more
whitespace characters, then a captured capital letter. -/
def rankScan : List Char → Option Char
  | [] => none
  | cs@(_ :: t) =>
    if "Category".toList.isPrefixOf cs then
      let rest := cs.drop 8
      let ws := rest.takeWhile Char.isWhitespace
      let after := rest.dropWhile Char.isWhitespace
      match after with
      | c :: _ => if !ws.isEmpty && c.isUpper then some c else rankScan t
      | [] => rankScan t
    else rankScan t

/-- The category dict assembled from a category name in
RaceResultsParser.parse (gender, category_rank, category_type, in dict
insertion order, each key present only when its pattern matched). -/
def catOf (name : String) : List (String × String) :=
  (match genderScan name with
   | some g => [("gender", g)]
   | none => []) ++
  (match rankScan name.toList with
   | some c => [("category_rank", String.mk [c])]
   | none => []) ++
  (if containsSub (pyLower name) "masters" then [("category_type", "Masters")]
   else if containsSub (pyLower name) "juniors" then [("category_type", "Juniors")]
   else [])

/-- re.search of the permit pattern (permit= followed by at least one
non-ampersand character) over an href; returns the captured group. -/
def permitScan : List Char → Option String
  | [] => none
  | cs@(_ :: t) =>
    if "permit=".toList.isPrefixOf cs then
      let cap := takeUntilChar '&' (cs.drop 7)
      if cap.isEmpty then permitScan t else some (String.mk cap)
    else permitScan t

/-! ## Race results (BaseParser.fetch_race_results, parser.py lines 559-717,
and RaceResultsParser, lines 1018-1195) -/

/-- Python dict assignment on an assoc list: update in place or append. -/
def dictInsert (d : List (String × String)) (k v : String) : List (String × String) :=
  match d with
  | [] => [(k, v)]
  | (k', v') :: t => if k' = k then (k, v) :: t else (k', v') :: dictInsert t k v

/-- One rider dict of the div-grid path of fetch_race_results: each field is
added only when the row has enough cells (keys in dict insertion order). -/
def inlineRider (cells : List TCell) : List (String × String) :=
  (if cells.length ≥ 2 then [("place", extractTextC (cells.get? 1))] else []) ++
  (if cells.length ≥ 5 then
    [("name",
      match (cells.get? 4).bind TCell.link with
      | some l => extractTextS l.text
      | none => extractTextC (cells.get? 4))]
   else []) ++
  (if cells.length ≥ 6 then [("location", extractTextC (cells.get? 5))] else []) ++
  (if cells.length ≥ 7 then [("time", extractTextC (cells.get? 6))] else []) ++
  (if cells.length ≥ 9 then [("license", extractTextC (cells.get? 8))] else []) ++
  (if cells.length ≥ 10 then [("bib", extractTextC (cells.get? 9))] else []) ++
  (if cells.length ≥ 11 then [("team", extractTextC (cells.get? 10))] else [])

/-- The tbody loop of the legacy table path: map header texts to cell texts
by position. -/
def legacyRider (hdrs : List String) (row : List String) : List (String × String) :=
  row.enum.foldl
    (fun d ic =>
      if ic.1 < hdrs.length then dictInsert d (hdrs.getD ic.1 "") (extractTextS ic.2) else d)
    []

/-- The rider rows assembled by fetch_race_results from a parsed document. -/
def shapeRiders (doc : HtmlDoc) : List (List (String × String)) :=
  if doc.tablerows.isEmpty then
    match doc.resultsTable with
    | some t =>
      t.rows.filterMap fun row =>
        let d := legacyRider (t.headers.map pyStrip) row
        if d.isEmpty then none else some d
    | none => []
  else if doc.headerCells.isEmpty then []
  else
    (doc.tablerows.filter fun r =>
      r.classes.contains "odd" || r.classes.contains "even").filterMap fun r =>
        let d := inlineRider r.cells
        if d.isEmpty then none else some d

/-- The result dict assembled by fetch_race_results from a parsed document. -/
def extractShape (raceId : String) (doc : HtmlDoc) : RaceShape :=
  let name :=
    match doc.raceTitle with
    | some t => extractTextS t
    | none =>
      match doc.raceName with
      | some t => extractTextS t
      | none => ""
  ⟨raceId, name, shapeRiders doc⟩

/-- How one call of fetch_race_results terminates. -/
inductive RaceFetchOutcome where
  /-- A result dict was returned (the parsed shape, the minimal fallback
  shape, or whatever the cache held). -/
  | result (v : JVal)
  /-- IPBlockedError raised and re-raised past the except clause. -/
  | ipBlocked (url : String)
  /-- An exception escaped the cache read before the try block. -/
  | raised (e : PyExc)
deriving DecidableEq, Repr

/-- Result record of a fetch_race_results run. -/
structure RaceRun where
  result : RaceFetchOutcome
  store : CacheStore
  invocations : Nat

/-- BaseParser.fetch_race_results.  The except clause converts every
exception other than IPBlockedError into the minimal result shape. -/
def fetchRaceResults (env : DomEnv) (cacheEnabled : Bool) (store : CacheStore)
    (now : Rat) (raceId : String) (maxRetries : Nat) (retryDelay : Rat)
    (transport : Nat → TransportOutcome) : RaceRun :=
  let url := buildRaceResultsUrl raceId
  let minimal : JVal := .raceShape ⟨raceId, "", []⟩
  let core : RaceRun :=
    match fetchWithRetries url maxRetries retryDelay transport with
    | (.success r, n, _) =>
      if blockedBody r.text then ⟨.ipBlocked url, store, n⟩
      else
        let html0 := r.text
        let html1 :=
          if pyStartsWith html0 "\x7b" then
            match env.jsonOf html0 with
            | some j =>
              match j.message with
              | some m => m
              | none =>
                match j.d with
                | some dd => dd
                | none => html0
            | none => html0
          else html0
        if containsSub html1 "Unauthorized access!" then
          ⟨.result minimal, store, n⟩
        else
          let shape := extractShape raceId (env.domOf html1)
          let store' := saveToCache cacheEnabled store now url (.raceShape shape) 3600
          ⟨.result (.raceShape shape), store', n⟩
    | (.networkError _ _, n, _) => ⟨.result minimal, store, n⟩
    | (.attributeError, n, _) => ⟨.result minimal, store, n⟩
    | (.returnedNone, n, _) => ⟨.result minimal, store, n⟩
  if cacheEnabled then
    match getFromCache true store now url with
    | .ok (some e) => ⟨.result e.response, store, 0⟩
    | .ok none => core
    | .error exc => ⟨.raised exc, store, 0⟩
  else core

/-! ## RaceResultsParser._extract_riders (parser.py lines 1097-1195) -/

/-- Python list indexing: IndexError when out of range. -/
def pyIndex {α : Type} (l : List α) (i : Nat) : Except Unit α :=
  match l.get? i with
  | some x => .ok x
  | none => .error ()

/-- One rider record built by _extract_riders. -/
structure Rider where
  place : String
  placeNumber : Option Int
  name : String
  city : Option String
  state : Option String
  team : String
  license : String
  bib : String
  time : String
  isDnf : Bool
  isDns : Bool
  isDq : Bool
  /-- none: key absent; some none: int(points) failed; some (some k): value. -/
  points : Option (Option Int)
deriving DecidableEq, Repr

/-- The body of the row loop of _extract_riders: rows with fewer than 6
result cells are skipped, then cells 6, 8, 9 and 10 are read unguarded. -/
def extractRow (cells : List TCell) : Except Unit (Option Rider) :=
  if cells.length < 6 then .ok none
  else do
    let place := extractTextC (cells.get? 1)
    let points := extractTextC (cells.get? 2)
    let nameCell := cells.get? 4
    let name :=
      match nameCell.bind TCell.link with
      | some l => extractTextS l.text
      | none => extractTextC nameCell
    let location := extractTextC (cells.get? 5)
    let parts := pySplitComma location
    let city := if location ≠ "" then some (pyStrip (parts.getD 0 "")) else none
    let state := if location ≠ "" && parts.length ≥ 2 then some (pyStrip (parts.getD 1 "")) else none
    let c6 ← pyIndex cells 6
    let time := extractTextS c6.text
    let c8 ← pyIndex cells 8
    let license := extractTextS c8.text
    let c9 ← pyIndex cells 9
    let bib := extractTextS c9.text
    let c10 ← pyIndex cells 10
    let team := extractTextS c10.text
    let lower := pyLower place
    let isDnf := place ≠ "" && containsSub lower "dnf"
    let isDns := place ≠ "" && containsSub lower "dns"
    let isDq := place ≠ "" && (containsSub lower "dq" || containsSub lower "dsq")
    let placeNumber := if place ≠ "" && !(isDnf || isDns || isDq) then pyInt place else none
    let pts := if points ≠ "" then some (pyInt points) else none
    .ok (some ⟨place, placeNumber, name, city, state, team, license, bib, time,
      isDnf, isDns, isDq, pts⟩)

/-- The rider rows _extract_riders selects: div.tablerow with class odd or
even. -/
def riderRowsOf (doc : HtmlDoc) : List DivRow :=
  doc.tablerows.filter fun r =>
    r.classes.contains "odd" || r.classes.contains "even"

/-- Sequential processing of the selected rows; an IndexError in any row
aborts the whole extraction. -/
def extractRidersGo : List DivRow → Except Unit (List Rider)
  | [] => .ok []
  | r :: rs =>
    match extractRow r.cells with
    | .error e => .error e
    | .ok none => extractRidersGo rs
    | .ok (some rd) =>
      match extractRidersGo rs with
      | .error e => .error e
      | .ok l => .ok (rd :: l)

/-- RaceResultsParser._extract_riders. -/
def extractRiders (doc : HtmlDoc) : Except Unit (List Rider) :=
  extractRidersGo (riderRowsOf doc)

/-! ## RaceResultsParser.parse (parser.py lines 1021-1095) -/

/-- The riders member of the parse result: dicts from fetch_race_results, or
records from _extract_riders in the legacy branch. -/
inductive RidersVal where
  | dicts (l : List (List (String × String)))
  | records (l : List Rider)
deriving DecidableEq, Repr

/-- The race_data dict returned by RaceResultsParser.parse. -/
structure RaceData where
  id : String
  name : String
  category : List (String × String)
  riders : RidersVal
  eventId : Option String
  date : Option String
deriving DecidableEq, Repr

/-- How one call of RaceResultsParser.parse terminates. -/
inductive RaceParseOutcome where
  | ok (d : RaceData)
  | ipBlocked (url : String)
  /-- Uncaught IndexError out of _extract_riders. -/
  | indexError
  | raised (e : PyExc)
deriving DecidableEq, Repr

/-- RaceResultsParser.parse: dispatch on the shape fetch_race_results
returned; parse adds no exception handler of its own. -/
def raceParse (env : DomEnv) (cacheEnabled : Bool) (store : CacheStore)
    (now : Rat) (raceId : String) (maxRetries : Nat) (retryDelay : Rat)
    (transport : Nat → TransportOutcome) : RaceParseOutcome :=
  match (fetchRaceResults env cacheEnabled store now raceId maxRetries retryDelay transport).result with
  | .ipBlocked u => .ipBlocked u
  | .raised e => .raised e
  | .result v =>
    let base : RaceData := ⟨raceId, "", [], .dicts [], none, none⟩
    match v with
    | .raceShape s =>
      if s.id = raceId then
        let category := if s.name ≠ "" then catOf s.name else []
        .ok ⟨raceId, s.name, category, .dicts s.riders, none, none⟩
      else .ok base
    | .dEnvelope od =>
      match od with
      | none => .ok base
      | some html =>
        if html = "" then .ok base
        else
          let doc := env.domOf html
          let name :=
            match doc.raceName with
            | some t => extractTextS t
            | none => ""
          match extractRiders doc with
          | .error _ => .indexError
          | .ok riders => .ok ⟨raceId, name, [], .records riders, none, none⟩
    | _ => .ok base

/-! ## Date parsing (BaseParser._extract_date, parser.py lines 396-423) -/

/-- The strptime month directive: two-digit 10-12 or 01-09, else one digit
1-9 (the alternation order of the generated pattern). -/
def matchMonth : List Char → Option (Nat × List Char)
  | '1' :: c :: rest =>
    if '0' ≤ c && c ≤ '2' then some (10 + (c.toNat - 48), rest)
    else some (1, c :: rest)
  | '0' :: c :: rest =>
    if '1' ≤ c && c ≤ '9' then some (c.toNat - 48, rest) else none
  | c :: rest =>
    if '1' ≤ c && c ≤ '9' then some (c.toNat - 48, rest) else none
  | [] => none

/-- The strptime day directive: 30-31, 10-29, 01-09, else one digit 1-9. -/
def matchDay : List Char → Option (Nat × List Char)
  | '3' :: c :: rest =>
    if c = '0' || c = '1' then some (30 + (c.toNat - 48), rest)
    else some (3, c :: rest)
  | '1' :: c :: rest =>
    if c.isDigit then some (10 + (c.toNat - 48), rest) else some (1, c :: rest)
  | '2' :: c :: rest =>
    if c.isDigit then some (20 + (c.toNat - 48), rest) else some (2, c :: rest)
  | '0' :: c :: rest =>
    if '1' ≤ c && c ≤ '9' then some (c.toNat - 48, rest) else none
  | c :: rest =>
    if '1' ≤ c && c ≤ '9' then some (c.toNat - 48, rest) else none
  | [] => none

/-- The strptime four-digit year directive. -/
def matchYear4 (cs : List Char) : Option (Nat × List Char) :=
  readDigits 4 cs

/-- Month names recognized by the full and abbreviated month directives
(locale C), matched case-insensitively. -/
def monthNames : List (String × String) :=
  [("january", "jan"), ("february", "feb"), ("march", "mar"), ("april", "apr"),
   ("may", "may"), ("june", "jun"), ("july", "jul"), ("august", "aug"),
   ("september", "sep"), ("october", "oct"), ("november", "nov"), ("december", "dec")]

/-- Match a month name from a list of candidates (1-based month number). -/
def matchName (names : List String) (cs : List Char) : Option (Nat × List Char) :=
  let lower := cs.map Char.toLower
  (names.enum.findSome? fun im =>
    if im.2.toList.isPrefixOf lower then some (im.1 + 1, im.2.toList.length) else none).map
    fun mn => (mn.1, cs.drop mn.2)

/-- One or more whitespace characters (a literal space in a strptime format
matches a whitespace run). -/
def matchWs (cs : List Char) : Option (List Char) :=
  let ws := cs.takeWhile Char.isWhitespace
  if ws.isEmpty then none else some (cs.dropWhile Char.isWhitespace)

/-- Build the date from matched fields, applying the datetime.date
constructor validation; a full match of the input is required. -/
def finishDate (y m d : Nat) (rest : List Char) : Option PyDate :=
  if rest.isEmpty && validDate y m d then some ⟨y, m, d⟩ else none

/-- strptime with format month/day/year. -/
def parseMDY (cs : List Char) : Option PyDate := do
  let (m, cs) ← matchMonth cs
  let cs ← readChar '/' cs
  let (d, cs) ← matchDay cs
  let cs ← readChar '/' cs
  let (y, cs) ← matchYear4 cs
  finishDate y m d cs

/-- strptime with format year-month-day. -/
def parseYMD (cs : List Char) : Option PyDate := do
  let (y, cs) ← matchYear4 cs
  let cs ← readChar '-' cs
  let (m, cs) ← matchMonth cs
  let cs ← readChar '-' cs
  let (d, cs) ← matchDay cs
  finishDate y m d cs

/-- strptime with a month-name format: name, whitespace, day, comma,
whitespace, four-digit year. -/
def parseNameDY (names : List String) (cs : List Char) : Option PyDate := do
  let (m, cs) ← matchName names cs
  let cs ← matchWs cs
  let (d, cs) ← matchDay cs
  let cs ← readChar ',' cs
  let cs ← matchWs cs
  let (y, cs) ← matchYear4 cs
  finishDate y m d cs

/-- BaseParser._extract_date: try the four formats in order on the stripped
string; None when the string is empty or no format applies. -/
def extractDate (s : String) : Option PyDate :=
  if s = "" then none
  else
    let cs := (pyStrip s).toList
    match parseMDY cs with
    | some d => some d
    | none =>
      match parseYMD cs with
      | some d => some d
      | none =>
        match parseNameDY (monthNames.map Prod.fst) cs with
        | some d => some d
        | none => parseNameDY (monthNames.map Prod.snd) cs

/-! ## EventListParser.parse (parser.py lines 723-814) -/

/-- One event record assembled by EventListParser.parse.  The source also
stores the raw row markup under an html key; that field is opaque text and
is not modelled. -/
structure EventRecord where
  eventDate : Option PyDate
  name : String
  permit : String
  permitUrl : String
  submitDate : Option PyDate
deriving DecidableEq, Repr

/-- The row loop body of EventListParser.parse: rows with fewer than 4
cells, rows whose first cell has text, and rows without a link in the third
cell are skipped. -/
def parseEventRow (row : TRow) : Option EventRecord :=
  let cells := row.cells
  if cells.length < 4 then none
  else if extractTextC (cells.get? 0) ≠ "" then none
  else
    let eventDate := extractDate (extractTextC (cells.get? 1))
    match (cells.get? 2).bind TCell.link with
    | none => none
    | some link =>
      let name := extractTextS link.text
      let href := link.href.getD ""
      let permit :=
        if href ≠ "" then
          match permitScan href.toList with
          | some p => p
          | none => ""
        else ""
      let url :=
        if href ≠ "" && !(pyStartsWith href "http://" || pyStartsWith href "https://") then
          pyUrljoin BASE_URL href
        else href
      let submitDate := extractDate (extractTextC (cells.get? 3))
      some ⟨eventDate, name, permit, url, submitDate⟩

/-- The extraction part of EventListParser.parse on a parsed document:
no datatable or only header rows degrade to the empty list. -/
def parseEventHtml (doc : HtmlDoc) : List EventRecord :=
  match doc.datatable with
  | none => []
  | some rows =>
    if rows.length ≤ 2 then []
    else (rows.drop 2).filterMap parseEventRow

/-- How one call of EventListParser.parse terminates. -/
inductive EventListOutcome where
  | ok (l : List EventRecord)
  | ipBlocked (url : String)
  | netError
  /-- A cached payload that is not text reached BeautifulSoup. -/
  | nonText
  | raised (e : PyExc)
deriving DecidableEq, Repr

/-- EventListParser.parse: fetch the browse page for a state and year
(fetch_event_list) and extract the event rows. -/
def eventListParse (env : DomEnv) (cacheEnabled : Bool) (store : CacheStore)
    (now : Rat) (state : String) (year : Nat) (maxRetries : Nat)
    (retryDelay : Rat) (transport : Nat → TransportOutcome) : EventListOutcome :=
  let url := BASE_URL ++ "/results/browse.php"
  let params := [("state", state), ("race", ""), ("fyear", toString year)]
  let run := fetchContent cacheEnabled store now url (some params) maxRetries retryDelay transport
  match run.result with
  | .content (.str html) => .ok (parseEventHtml (env.domOf html))
  | .content _ => .nonText
  | .ipBlocked u => .ipBlocked u
  | .netError => .netError
  | .raised e => .raised e

/-! ## Properties of the Retry/Backoff Controller -/

/-- If the transport raises on every invocation before n and returns a good
response at n, the loop succeeds at attempt n with n - attempt + 1 further
invocations (provided n is reached before the bound). -/
theorem runFrom_succeeds (url : String) (rd : Rat) (tr : Nat → TransportOutcome)
    (n : Nat) (r : TResponse) (maxR : Nat)
    (hfail : ∀ i, i < n → tr i = .exc) (hsucc : tr n = .resp r) (hst : r.status < 400) :
    ∀ fuel attempt, attempt + fuel = maxR → attempt ≤ n → n < maxR →
      (runFrom url maxR rd tr attempt fuel).1 = .success r ∧
      (runFrom url maxR rd tr attempt fuel).2.1 = n - attempt + 1 := by
  intro fuel
  induction fuel with
  | zero => intro attempt h1 h2 h3; omega
  | succ f ih =>
    intro attempt h1 h2 h3
    by_cases he : attempt = n
    · subst he
      have h429 : ¬(r.status = 429) := by omega
      have h400 : ¬(400 ≤ r.status) := by omega
      simp [runFrom, hsucc, h429, h400]
    · have hx := hfail attempt (by omega)
      have hcond : (attempt : Int) < (maxR : Int) - 1 := by omega
      have hrec := ih (attempt + 1) (by omega) (by omega) h3
      simp only [runFrom, hx, if_pos hcond]
      refine ⟨hrec.1, ?_⟩
      rw [hrec.2]
      omega

/-- If the transport raises on every invocation, the whole bounded loop
raises NetworkError carrying the url and max_retries, after exactly fuel
further invocations. -/
theorem runFrom_exhausts (url : String) (rd : Rat) (tr : Nat → TransportOutcome)
    (n maxR : Nat) (hfail : ∀ i, i < n → tr i = .exc) (hn : maxR ≤ n) :
    ∀ fuel attempt, attempt + fuel = maxR → 1 ≤ fuel →
      (runFrom url maxR rd tr attempt fuel).1 = .networkError url maxR ∧
      (runFrom url maxR rd tr attempt fuel).2.1 = fuel := by
  intro fuel
  induction fuel with
  | zero => intro attempt h1 h2; omega
  | succ f ih =>
    intro attempt h1 _
    have hx := hfail attempt (by omega)
    rcases Nat.eq_zero_or_pos f with hf | hf
    · subst hf
      have hcond : ¬((attempt : Int) < (maxR : Int) - 1) := by omega
      simp [runFrom, hx, hcond]
    · have hcond : (attempt : Int) < (maxR : Int) - 1 := by omega
      have hrec := ih (attempt + 1) (by omega) (by omega)
      simp only [runFrom, hx, if_pos hcond]
      refine ⟨hrec.1, ?_⟩
      rw [hrec.2]

/-- A first-invocation good response short-circuits the whole retry loop. -/
theorem fetchWithRetries_first (url : String) (rd : Rat)
    (tr : Nat → TransportOutcome) (maxR : Nat) (r : TResponse)
    (h1 : 1 ≤ maxR) (h0 : tr 0 = .resp r) (hst : r.status < 400) :
    fetchWithRetries url maxR rd tr = (.success r, 1, []) := by
  obtain ⟨k, rfl⟩ : ∃ k, maxR = k + 1 := ⟨maxR - 1, by omega⟩
  have h429 : ¬(r.status = 429) := by omega
  have h400 : ¬(400 ≤ r.status) := by omega
  simp [fetchWithRetries, runFrom, h0, h429, h400]

/-- A transport that always raises exhausts the bound with one invocation
per attempt. -/
theorem fetchWithRetries_allExc (url : String) (rd : Rat)
    (tr : Nat → TransportOutcome) (maxR : Nat)
    (h1 : 1 ≤ maxR) (hfail : ∀ i, tr i = .exc) :
    (fetchWithRetries url maxR rd tr).1 = .networkError url maxR ∧
    (fetchWithRetries url maxR rd tr).2.1 = maxR :=
  runFrom_exhausts url rd tr maxR maxR (fun i _ => hfail i) le_rfl maxR 0 (by omega) h1

/-! ## Claim theorems: the retry controller -/

/-- A transport whose every response is HTTP 429 with a Retry-After of one
second. -/
def tr429all : Nat → TransportOutcome := fun _ => .resp ⟨429, some "1", ""⟩

/-- A transport that raises on every invocation. -/
def trAllExc : Nat → TransportOutcome := fun _ => .exc

/-- A transport that succeeds immediately. -/
def trOk : Nat → TransportOutcome := fun _ => .resp ⟨200, none, "ok"⟩

/-- Claim C3: exhausting all attempts is said to always raise NetworkError
with the URL and attempt count, including when every attempt yields HTTP
429.  The exception path does raise NetworkError with the URL and the
attempt count (second conjunct), but when every attempt is a 429 the loop
body never raises: the for-loop completes and the function returns None
(first conjunct), contradicting the claim and the function's own docstring
and return annotation. -/
theorem claim_C3_429_divergence :
    fetchWithRetries "https://legacy.usacycling.org/results/" 3 2 tr429all =
      (.returnedNone, 3, [1, 1, 1]) ∧
    fetchWithRetries "https://legacy.usacycling.org/results/" 3 2 trAllExc =
      (.networkError "https://legacy.usacycling.org/results/" 3, 3, [2, 4]) := by
  refine ⟨rfl, ?_⟩
  norm_num [fetchWithRetries, runFrom, trAllExc]

/-- Claim C4 (counterexample): with max_retries = 0 and a stub that fails
on its first 0 invocations and succeeds on invocation 1, max_retries <= n
holds (0 <= 0), yet the call does not raise NetworkError: range(0) is empty,
no attempt runs, and the function returns None with zero invocations. -/
theorem claim_C4_counterexample :
    fetchWithRetries "u" 0 2 trOk = (.returnedNone, 0, []) := by
  exact rfl

/-- Claim C4 (amended): for a transport stub failing on its first n
invocations and succeeding on invocation n+1: if max_retries > n the call
returns the successful response after exactly n+1 invocations; if
1 <= max_retries <= n the call raises NetworkError with the URL and the
attempt count; with max_retries = 0 the loop never runs and the function
returns None. -/
theorem claim_C4_retry_controller (url : String) (rd : Rat)
    (tr : Nat → TransportOutcome) (n maxR : Nat) (r : TResponse)
    (hfail : ∀ i, i < n → tr i = .exc) (hsucc : tr n = .resp r)
    (hst : r.status < 400) :
    (n < maxR →
      (fetchWithRetries url maxR rd tr).1 = .success r ∧
      (fetchWithRetries url maxR rd tr).2.1 = n + 1) ∧
    (1 ≤ maxR → maxR ≤ n →
      (fetchWithRetries url maxR rd tr).1 = .networkError url maxR ∧
      (fetchWithRetries url maxR rd tr).2.1 = maxR) ∧
    (maxR = 0 → fetchWithRetries url maxR rd tr = (.returnedNone, 0, [])) := by
  refine ⟨fun hlt => ?_, fun h1 hle => ?_, fun h0 => ?_⟩
  · have h := runFrom_succeeds url rd tr n r maxR hfail hsucc hst maxR 0 (by omega) (by omega) hlt
    refine ⟨h.1, ?_⟩
    have h2 := h.2
    simp only [fetchWithRetries]
    omega
  · exact runFrom_exhausts url rd tr n maxR hfail hle maxR 0 (by omega) h1
  · subst h0; rfl

/-- Claim C4 (witness): n = 1; with max_retries = 2 the second invocation's
response comes back after 2 invocations, with max_retries = 1 NetworkError
is raised after 1 invocation. -/
theorem claim_C4_witness :
    ((fetchWithRetries "u" 2 2 (fun i => if i = 0 then .exc else .resp ⟨200, none, "ok"⟩)).1 =
        .success ⟨200, none, "ok"⟩ ∧
      (fetchWithRetries "u" 2 2 (fun i => if i = 0 then .exc else .resp ⟨200, none, "ok"⟩)).2.1 = 2) ∧
    ((fetchWithRetries "u" 1 2 (fun i => if i = 0 then .exc else .resp ⟨200, none, "ok"⟩)).1 =
        .networkError "u" 1 ∧
      (fetchWithRetries "u" 1 2 (fun i => if i = 0 then .exc else .resp ⟨200, none, "ok"⟩)).2.1 = 1) := by
  have h := claim_C4_retry_controller "u" 2
    (fun i => if i = 0 then .exc else .resp ⟨200, none, "ok"⟩) 1 2 ⟨200, none, "ok"⟩
    (by intro i hi; have h0 : i = 0 := by omega
        subst h0; rfl) (by rfl) (by norm_num)
  have h' := claim_C4_retry_controller "u" 2
    (fun i => if i = 0 then .exc else .resp ⟨200, none, "ok"⟩) 1 1 ⟨200, none, "ok"⟩
    (by intro i hi; have h0 : i = 0 := by omega
        subst h0; rfl) (by rfl) (by norm_num)
  exact ⟨h.1 (by norm_num), h'.2.1 (by norm_num) (by norm_num)⟩

/-- Claim C5: on a 429 response, a present all-digit Retry-After value is
slept and the attempt is retried (second conjunct: sleep 7 then the next
attempt succeeds); but when the header is absent the dict .get default is
the float retry_delay * 2, and calling .isdigit() on a float raises an
uncaught AttributeError after a single invocation, with no sleep and no
retry (first conjunct), contradicting the claimed retry_delay * 2 fallback
sleep and the function's documented exceptions. -/
theorem claim_C5_retry_after :
    fetchWithRetries "u" 3 2 (fun _ => .resp ⟨429, none, ""⟩) = (.attributeError, 1, []) ∧
    fetchWithRetries "u" 3 2
        (fun i => if i = 0 then .resp ⟨429, some "7", ""⟩ else .resp ⟨200, none, "ok"⟩) =
      (.success ⟨200, none, "ok"⟩, 2, [7]) := by
  exact ⟨rfl, rfl⟩

/-! ## Claim theorems: blocked-access detection and race-results errors -/

/-- A body carrying both blocked-page markers. -/
def blockedText : String := "Invalid user access detected: malicious activity"

/-- A transport that always serves the blocked page with HTTP 500. -/
def trBlocked500 : Nat → TransportOutcome := fun _ => .resp ⟨500, none, blockedText⟩

/-- A transport that always serves the blocked page with HTTP 200. -/
def trBlocked200 : Nat → TransportOutcome := fun _ => .resp ⟨200, none, blockedText⟩

/-- Claim C1 (counterexample): a body with both markers does not always
yield IPBlockedError regardless of status code.  With HTTP 500,
raise_for_status fires before the marker check ever runs, the blocked
response is retried on all 3 attempts, and the caller sees NetworkError. -/
theorem claim_C1_counterexample :
    blockedBody blockedText = true ∧
    (fetchContent false emptyStore 0 "u" none 3 2 trBlocked500).result = .netError ∧
    (fetchContent false emptyStore 0 "u" none 3 2 trBlocked500).invocations = 3 := by
  exact ⟨rfl, rfl, rfl⟩

/-- Claim C1 (amended): when the first response passes raise_for_status
(status below 400) and its body contains both marker substrings,
_fetch_content raises IPBlockedError and the transport was invoked exactly
once; the blocked response is never retried. -/
theorem claim_C1_blocked_detection (store : CacheStore) (now rd : Rat)
    (url : String) (params : Option (List (String × String))) (maxR : Nat)
    (tr : Nat → TransportOutcome) (r : TResponse)
    (h1 : 1 ≤ maxR) (h0 : tr 0 = .resp r) (hst : r.status < 400)
    (hb : blockedBody r.text = true) :
    (fetchContent false store now url params maxR rd tr).result = .ipBlocked url ∧
    (fetchContent false store now url params maxR rd tr).invocations = 1 := by
  have hfw := fetchWithRetries_first url rd tr maxR r h1 h0 hst
  simp [fetchContent, hfw, hb]

/-- Claim C1 (witness): blocked body with HTTP 200 raises IPBlockedError
after exactly one transport invocation. -/
theorem claim_C1_witness :
    (fetchContent false emptyStore 0 "u" none 3 2 trBlocked200).result = .ipBlocked "u" ∧
    (fetchContent false emptyStore 0 "u" none 3 2 trBlocked200).invocations = 1 :=
  claim_C1_blocked_detection emptyStore 0 2 "u" none 3 trBlocked200
    ⟨200, none, blockedText⟩ (by norm_num) rfl (by norm_num) rfl

/-- The trivial document environment (an empty parse of every text). -/
def envTrivial : DomEnv := ⟨fun _ => {}, fun _ => none⟩

/-- Claim C2 (counterexample): with a transport that raises on every
invocation, the underlying fetch raises NetworkError, yet
RaceResultsParser.parse returns the degraded record built from the empty
shape instead of letting the NetworkError propagate: fetch_race_results
catches every exception except IPBlockedError and returns the minimal
result dict. -/
theorem claim_C2_counterexample :
    raceParse envTrivial false emptyStore 0 "42" 3 2 trAllExc =
      .ok ⟨"42", "", [], .dicts [], none, none⟩ := by
  exact rfl

/-- Claim C2 (amended): a NetworkError from the underlying fetch is caught
by fetch_race_results and converted into the returned empty shape, which
RaceResultsParser.parse passes through as the degraded record
(id, empty name, no riders); only the blocked-access condition propagates
as an exception (second conjunct). -/
theorem claim_C2_network_swallowed (env : DomEnv) (store : CacheStore)
    (now rd : Rat) (raceId : String) (maxR : Nat)
    (tr : Nat → TransportOutcome) (h1 : 1 ≤ maxR) :
    ((∀ i, tr i = .exc) →
      raceParse env false store now raceId maxR rd tr =
        .ok ⟨raceId, "", [], .dicts [], none, none⟩) ∧
    (∀ r : TResponse, tr 0 = .resp r → r.status < 400 → blockedBody r.text = true →
      raceParse env false store now raceId maxR rd tr =
        .ipBlocked (buildRaceResultsUrl raceId)) := by
  constructor
  · intro hfail
    have hfw := fetchWithRetries_allExc (buildRaceResultsUrl raceId) rd tr maxR h1 hfail
    rcases heq : fetchWithRetries (buildRaceResultsUrl raceId) maxR rd tr with ⟨o, cnt, slps⟩
    rw [heq] at hfw
    have ho : o = .networkError (buildRaceResultsUrl raceId) maxR := hfw.1
    subst ho
    simp [raceParse, fetchRaceResults, heq]
  · intro r h0 hst hb
    have hfw := fetchWithRetries_first (buildRaceResultsUrl raceId) rd tr maxR r h1 h0 hst
    simp [raceParse, fetchRaceResults, hfw, hb]

/-- Claim C2 (witness): both conversion of a network failure into the
degraded record and propagation of the blocked condition, at concrete
inputs. -/
theorem claim_C2_witness :
    raceParse envTrivial false emptyStore 0 "7" 2 2 trAllExc =
      .ok ⟨"7", "", [], .dicts [], none, none⟩ ∧
    raceParse envTrivial false emptyStore 0 "7" 2 2 trBlocked200 =
      .ipBlocked (buildRaceResultsUrl "7") := by
  have h := claim_C2_network_swallowed envTrivial emptyStore 0 2 "7" 2 trAllExc (by norm_num)
  have h' := claim_C2_network_swallowed envTrivial emptyStore 0 2 "7" 2 trBlocked200 (by norm_num)
  exact ⟨h.1 (fun _ => rfl), h'.2 ⟨200, none, blockedText⟩ rfl (by norm_num) rfl⟩

/-! ## Claim theorems: the response cache -/

/-- Claim C6 (counterexample): two parameter mappings holding the same
key/value pairs but constructed in different insertion orders derive
different cache keys, because the key joins the pairs in dict iteration
order without sorting; the two fetches therefore use different cache
entries. -/
theorem claim_C6_counterexample :
    ([("a", "1"), ("b", "2")] : List (String × String)).Perm [("b", "2"), ("a", "1")] ∧
    cacheKeyOf "u" (some [("a", "1"), ("b", "2")]) ≠
      cacheKeyOf "u" (some [("b", "2"), ("a", "1")]) := by
  constructor
  · exact List.Perm.swap _ _ _
  · decide

/-- Claim C6 (amended): within one _fetch_content call the key consulted
for the cache read and the key passed to _save_to_cache are always the
same, so a fetch reads and writes one entry; and two calls derive the same
key exactly when url and the iteration-ordered pair sequences agree —
pairs in a different insertion order may derive a different key. -/
theorem claim_C6_same_entry (url : String)
    (params : Option (List (String × String))) :
    writeKeyOf url params = cacheKeyOf url params := by
  by_cases h : paramsTruthy params = true
  · simp [writeKeyOf, h]
  · simp [writeKeyOf, cacheKeyOf, h]

/-! ## Properties of the fromtimestamp model -/

/-- The year-1 bound is the advertised calendar computation. -/
theorem datetimeMinTs_eq : daysFromCivil 1 1 1 * 86400 = -62135596800 := by
  decide

/-- The year-9999 bound is the advertised calendar computation. -/
theorem datetimeMaxTs_eq : daysFromCivil 9999 12 31 * 86400 + 86399 = 253402300799 := by
  decide

/-- The localtime bound is the last second of year 2^31 - 1 + 1900. -/
theorem localtimeBound_eq :
    daysFromCivil 2147485547 12 31 * 86400 + 86399 = 67768036191676799 := by
  decide

/-- Ordering of the platform timestamp bounds. -/
theorem cacheTsBounds :
    datetimeMinTs ≤ datetimeMaxTs ∧ datetimeMaxTs < localtimeBound ∧
    localtimeBound < timeTBound ∧ -timeTBound < -localtimeBound ∧
    -localtimeBound < datetimeMinTs := by
  norm_num [datetimeMinTs, datetimeMaxTs, localtimeBound, timeTBound]

/-- Timestamps within the datetime year range convert. -/
theorem pyFromtimestamp_ok (ts : Rat)
    (h1 : datetimeMinTs ≤ ts) (h2 : ts ≤ datetimeMaxTs) :
    pyFromtimestamp ts = .ok ts := by
  obtain ⟨b1, b2, b3, b4, b5⟩ := cacheTsBounds
  have n1 : ¬(ts ≥ timeTBound ∨ ts < -timeTBound) := by
    rintro (h | h) <;> linarith
  have n2 : ¬(ts > localtimeBound ∨ ts < -localtimeBound) := by
    rintro (h | h) <;> linarith
  have n3 : ¬(ts > datetimeMaxTs ∨ ts < datetimeMinTs) := by
    rintro (h | h) <;> linarith
  simp only [pyFromtimestamp, if_neg n1, if_neg n2, if_neg n3]

/-- Timestamps past year 9999 but still convertible by localtime raise
ValueError from the datetime constructor. -/
theorem pyFromtimestamp_valueError (ts : Rat)
    (h1 : datetimeMaxTs < ts) (h2 : ts ≤ localtimeBound) :
    pyFromtimestamp ts = .error .valueError := by
  obtain ⟨b1, b2, b3, b4, b5⟩ := cacheTsBounds
  have n1 : ¬(ts ≥ timeTBound ∨ ts < -timeTBound) := by
    rintro (h | h) <;> linarith
  have n2 : ¬(ts > localtimeBound ∨ ts < -localtimeBound) := by
    rintro (h | h) <;> linarith
  simp only [pyFromtimestamp, if_neg n1, if_neg n2, if_pos (Or.inl h1)]

/-- Timestamps past the localtime range but within time_t raise OSError. -/
theorem pyFromtimestamp_osError (ts : Rat)
    (h1 : localtimeBound < ts) (h2 : ts < timeTBound) :
    pyFromtimestamp ts = .error .osError := by
  obtain ⟨b1, b2, b3, b4, b5⟩ := cacheTsBounds
  have n1 : ¬(ts ≥ timeTBound ∨ ts < -timeTBound) := by
    rintro (h | h) <;> linarith
  simp only [pyFromtimestamp, if_neg n1, if_pos (Or.inl h1)]

/-- Timestamps past time_t raise OverflowError. -/
theorem pyFromtimestamp_overflow (ts : Rat) (h : timeTBound ≤ ts) :
    pyFromtimestamp ts = .error .overflowError := by
  simp only [pyFromtimestamp, if_pos (Or.inl h)]

/-- Claim C7 (counterexample): the round trip fails for ttl 10^12: the
stored expiry lands past year 9999, so the read-back hits fromtimestamp's
ValueError, the outer except treats the fresh entry as expired, and the
immediate read returns None instead of the payload. -/
theorem claim_C7_counterexample :
    (0 : Rat) < 10 ^ 12 ∧
    getFromCache true (saveToCache true emptyStore 0 "k" (.str "x") (10 ^ 12)) 0 "k" =
      .ok none := by
  constructor
  · norm_num
  · have hv := pyFromtimestamp_valueError ((10 : Rat) ^ 12)
      (by norm_num [datetimeMaxTs]) (by norm_num [localtimeBound])
    simp [getFromCache, getFromCacheBody, saveToCache, pyFloatNonStr, hv,
      caughtByCacheRead]

/-- Claim C7 (amended): for every ttl t > 0 whose resulting expiry
timestamp now + t stays within datetime's representable year range,
saving and immediately reading back returns the entry whose response field
is the payload, and any read more than t seconds after the write returns
None.  Beyond that range fromtimestamp raises and the fresh entry reads
back as absent. -/
theorem claim_C7_roundtrip (store : CacheStore) (now t : Rat) (key : String)
    (p : JVal) (ht : 0 < t)
    (hlo : datetimeMinTs ≤ now + t) (hhi : now + t ≤ datetimeMaxTs) :
    getFromCache true (saveToCache true store now key p t) now key =
      .ok (some ⟨key, now, some (.num (now + t)), p⟩) ∧
    ∀ now', now + t < now' →
      getFromCache true (saveToCache true store now key p t) now' key = .ok none := by
  have hok := pyFromtimestamp_ok (now + t) hlo hhi
  constructor
  · have hle : ¬(now > now + t) := by linarith
    simp [getFromCache, getFromCacheBody, saveToCache, pyFloatNonStr, hok, hle]
  · intro now' hgt
    have hgt' : now' > now + t := hgt
    simp [getFromCache, getFromCacheBody, saveToCache, pyFloatNonStr, hok, hgt']

/-- Claim C7 (witness): a concrete put/get round trip with ttl 3600 and a
read 4000 seconds later. -/
theorem claim_C7_witness :
    getFromCache true (saveToCache true emptyStore 0 "k" (.str "x") 3600) 0 "k" =
      .ok (some ⟨"k", 0, some (.num (0 + 3600)), .str "x"⟩) ∧
    getFromCache true (saveToCache true emptyStore 0 "k" (.str "x") 3600) 4000 "k" =
      .ok none := by
  have h := claim_C7_roundtrip emptyStore 0 3600 "k" (.str "x") (by norm_num)
    (by norm_num [datetimeMinTs]) (by norm_num [datetimeMaxTs])
  exact ⟨h.1, h.2 4000 (by norm_num)⟩

/-- A store whose numeric expiries fall in fromtimestamp's uncatchable
regions: 10^19 seconds overflows time_t, 4.6 * 10^18 defeats localtime. -/
def storeOverflow : CacheStore := fun p =>
  if p = cachePath "ko" then some (.valid ⟨"ko", 0, some (.num (10 ^ 19)), .str "v"⟩)
  else if p = cachePath "ks" then
    some (.valid ⟨"ks", 0, some (.num (46 * 10 ^ 17)), .str "w"⟩)
  else none

/-- Claim C8 (counterexample): the reader does raise to the caller: a
numeric expires_at of 10^19 (valid JSON) makes fromtimestamp raise
OverflowError, and 4.6 * 10^18 makes it raise OSError; neither class is in
the caught tuple (JSONDecodeError, KeyError, ValueError, TypeError), so
both escape _get_from_cache. -/
theorem claim_C8_counterexample :
    getFromCache true storeOverflow 0 "ko" = .error .overflowError ∧
    getFromCache true storeOverflow 0 "ks" = .error .osError := by
  constructor
  · have hv := pyFromtimestamp_overflow ((10 : Rat) ^ 19) (by norm_num [timeTBound])
    simp [getFromCache, getFromCacheBody, storeOverflow, pyFloatNonStr, hv,
      caughtByCacheRead]
  · have hv := pyFromtimestamp_osError ((46 : Rat) * 10 ^ 17)
      (by norm_num [localtimeBound]) (by norm_num [timeTBound])
    have hne : cachePath "ks" ≠ cachePath "ko" := by decide
    simp [getFromCache, getFromCacheBody, storeOverflow, pyFloatNonStr, hv,
      caughtByCacheRead, hne]

/-- Claim C8 (amended): the reader accepts a numeric epoch expiry within
datetime's range and an ISO-string expiry; an unparsable ISO string, a
non-convertible type, or a numeric expiry past year 9999 (fromtimestamp
ValueError, inside the caught tuple) is treated as expired, never as an
error; but a numeric expiry beyond the platform localtime or time_t range
makes fromtimestamp raise OSError or OverflowError, which is not caught
and propagates — those are the only exceptions that can escape. -/
theorem claim_C8_tolerant_reader :
    (∀ (enabled : Bool) (store : CacheStore) (now : Rat) (key : String),
      (∃ r, getFromCache enabled store now key = .ok r) ∨
      getFromCache enabled store now key = .error .overflowError ∨
      getFromCache enabled store now key = .error .osError) ∧
    (∀ (store : CacheStore) (now : Rat) (key : String) (e : CEntry) (q : Rat),
      store (cachePath key) = some (.valid e) → e.expiresAt = some (.num q) →
      datetimeMinTs ≤ q → q ≤ datetimeMaxTs →
      getFromCache true store now key = .ok (if now > q then none else some e)) ∧
    (∀ (store : CacheStore) (now : Rat) (key : String) (e : CEntry) (q : Rat),
      store (cachePath key) = some (.valid e) → e.expiresAt = some (.num q) →
      datetimeMaxTs < q → q ≤ localtimeBound →
      getFromCache true store now key = .ok none) ∧
    (∀ (store : CacheStore) (now : Rat) (key : String) (e : CEntry) (s : String) (q : Rat),
      store (cachePath key) = some (.valid e) → e.expiresAt = some (.str s) →
      isoParse s = some q →
      getFromCache true store now key = .ok (if now > q then none else some e)) ∧
    (∀ (store : CacheStore) (now : Rat) (key : String) (e : CEntry) (s : String),
      store (cachePath key) = some (.valid e) → e.expiresAt = some (.str s) →
      isoParse s = none →
      getFromCache true store now key = .ok none) ∧
    (∀ (store : CacheStore) (now : Rat) (key : String) (e : CEntry) (q : Rat),
      store (cachePath key) = some (.valid e) → e.expiresAt = some (.num q) →
      localtimeBound < q → q < timeTBound →
      getFromCache true store now key = .error .osError) ∧
    (∀ (store : CacheStore) (now : Rat) (key : String) (e : CEntry) (q : Rat),
      store (cachePath key) = some (.valid e) → e.expiresAt = some (.num q) →
      timeTBound ≤ q →
      getFromCache true store now key = .error .overflowError) := by
  refine ⟨?_, ?_, ?_, ?_, ?_, ?_, ?_⟩
  · intro enabled store now key
    cases enabled with
    | false => exact .inl ⟨none, rfl⟩
    | true =>
      simp only [getFromCache, Bool.not_true, Bool.false_eq_true, if_false]
      rcases hf : getFromCacheBody store now key with exc | r
      · cases exc with
        | jsonDecodeError => exact .inl ⟨none, rfl⟩
        | keyError => exact .inl ⟨none, rfl⟩
        | valueError => exact .inl ⟨none, rfl⟩
        | typeError => exact .inl ⟨none, rfl⟩
        | overflowError => exact .inr (.inl rfl)
        | osError => exact .inr (.inr rfl)
      · exact .inl ⟨r, rfl⟩
  · intro store now key e q hs he hlo hhi
    have hok := pyFromtimestamp_ok q hlo hhi
    by_cases h : now > q <;>
      simp [getFromCache, getFromCacheBody, hs, he, pyFloatNonStr, hok, h]
  · intro store now key e q hs he h1 h2
    have hv := pyFromtimestamp_valueError q h1 h2
    simp [getFromCache, getFromCacheBody, hs, he, pyFloatNonStr, hv,
      caughtByCacheRead]
  · intro store now key e s q hs he hiso
    by_cases h : now > q <;>
      simp [getFromCache, getFromCacheBody, hs, he, hiso, h]
  · intro store now key e s hs he hiso
    simp [getFromCache, getFromCacheBody, hs, he, hiso]
  · intro store now key e q hs he h1 h2
    have hv := pyFromtimestamp_osError q h1 h2
    simp [getFromCache, getFromCacheBody, hs, he, pyFloatNonStr, hv,
      caughtByCacheRead]
  · intro store now key e q hs he h1
    have hv := pyFromtimestamp_overflow q h1
    simp [getFromCache, getFromCacheBody, hs, he, pyFloatNonStr, hv,
      caughtByCacheRead]

/-- A concrete store with four entries: an in-range numeric expiry, an
ISO-string expiry, a garbage-string expiry, and a numeric expiry past
year 9999. -/
def storeC8 : CacheStore := fun p =>
  if p = cachePath "kn" then some (.valid ⟨"kn", 0, some (.num 100), .str "v"⟩)
  else if p = cachePath "ki" then
    some (.valid ⟨"ki", 0, some (.str "2020-01-01T00:00:00"), .str "w"⟩)
  else if p = cachePath "kb" then
    some (.valid ⟨"kb", 0, some (.str "not a timestamp"), .str "z"⟩)
  else if p = cachePath "kv" then
    some (.valid ⟨"kv", 0, some (.num (10 ^ 12)), .str "y"⟩)
  else none

/-- Claim C8 (witness): the encodings and the escape regions at concrete
inputs. -/
theorem claim_C8_witness :
    getFromCache true storeC8 50 "kn" =
      .ok (if (50 : Rat) > 100 then none else some ⟨"kn", 0, some (.num 100), .str "v"⟩) ∧
    getFromCache true storeC8 0 "ki" =
      .ok (if (0 : Rat) > timestampOf 2020 1 1 0 0 0 0 then none
        else some ⟨"ki", 0, some (.str "2020-01-01T00:00:00"), .str "w"⟩) ∧
    getFromCache true storeC8 0 "kb" = .ok none ∧
    getFromCache true storeC8 0 "kv" = .ok none ∧
    getFromCache true storeOverflow 0 "ks" = .error .osError ∧
    getFromCache true storeOverflow 0 "ko" = .error .overflowError := by
  refine ⟨?_, ?_, ?_, ?_, ?_, ?_⟩
  · exact claim_C8_tolerant_reader.2.1 storeC8 50 "kn" _ 100 rfl rfl
      (by norm_num [datetimeMinTs]) (by norm_num [datetimeMaxTs])
  · exact claim_C8_tolerant_reader.2.2.2.1 storeC8 0 "ki" _ "2020-01-01T00:00:00"
      (timestampOf 2020 1 1 0 0 0 0) rfl rfl rfl
  · exact claim_C8_tolerant_reader.2.2.2.2.1 storeC8 0 "kb" _ "not a timestamp" rfl rfl rfl
  · exact claim_C8_tolerant_reader.2.2.1 storeC8 0 "kv" _ (10 ^ 12) rfl rfl
      (by norm_num [datetimeMaxTs]) (by norm_num [localtimeBound])
  · exact claim_C8_tolerant_reader.2.2.2.2.2.1 storeOverflow 0 "ks" _ (46 * 10 ^ 17)
      rfl rfl (by norm_num [localtimeBound]) (by norm_num [timeTBound])
  · exact claim_C8_tolerant_reader.2.2.2.2.2.2 storeOverflow 0 "ko" _ (10 ^ 19)
      rfl rfl (by norm_num [timeTBound])

/-! ## Claim theorems: extraction -/

/-- The event-list data row of the claim: empty sentinel cell, event date,
linked name whose href carries the permit query parameter, submit date. -/
def eventDataRow : TRow :=
  ⟨[⟨"", none⟩, ⟨"12/02/2020", none⟩,
    ⟨"USA Cycling December VRL",
      some ⟨"USA Cycling December VRL", some "/results/?permit=2020-26"⟩⟩,
    ⟨"12/18/2020", none⟩]⟩

/-- A datatable with two header rows followed by the data row. -/
def eventDoc : HtmlDoc := { datatable := some [⟨[]⟩, ⟨[]⟩, eventDataRow] }

/-- An environment that parses the fetched page into that table. -/
def envEvent : DomEnv := ⟨fun _ => eventDoc, fun _ => none⟩

/-- A transport serving the event-list page. -/
def trEventPage : Nat → TransportOutcome := fun _ => .resp ⟨200, none, "PAGE"⟩

/-- Claim C9: on a datatable with two header rows and the single data row
above, EventListParser.parse returns exactly one record, named
USA Cycling December VRL, with permit 2020-26, event date 2020-12-02 and
submit date 2020-12-18. -/
theorem claim_C9_event_row :
    eventListParse envEvent false emptyStore 0 "CO" 2020 3 2 trEventPage =
      .ok [⟨some ⟨2020, 12, 2⟩, "USA Cycling December VRL", "2020-26",
        "https://legacy.usacycling.org/results/?permit=2020-26",
        some ⟨2020, 12, 18⟩⟩] := by
  decide

/-! ## Claim C10: index safety of RaceResultsParser._extract_riders -/

/-- IndexError on a list read past the end. -/
theorem pyIndex_none {α : Type} (l : List α) (i : Nat) (h : l.length ≤ i) :
    pyIndex l i = .error () := by
  unfold pyIndex
  rw [List.get?_eq_none.mpr h]

/-- In-range list reads succeed. -/
theorem pyIndex_some {α : Type} (l : List α) (i : Nat) (h : i < l.length) :
    ∃ x, pyIndex l i = .ok x := by
  refine ⟨l.get ⟨i, h⟩, ?_⟩
  unfold pyIndex
  rw [List.get?_eq_get h]

/-- A row with at least 6 but at most 10 result cells passes the length
guard yet always hits an out-of-range cell read. -/
theorem extractRow_error (cells : List TCell)
    (h6 : 6 ≤ cells.length) (h10 : cells.length ≤ 10) :
    extractRow cells = .error () := by
  have h6' : ¬(cells.length < 6) := by omega
  unfold extractRow
  rw [if_neg h6']
  rcases (by omega : cells.length ≤ 6 ∨ 7 ≤ cells.length) with h | h
  · rw [pyIndex_none cells 6 h]
    rfl
  · obtain ⟨c6, hc6⟩ := pyIndex_some cells 6 (by omega)
    rw [hc6]
    rcases (by omega : cells.length ≤ 8 ∨ 9 ≤ cells.length) with h8 | h8
    · rw [pyIndex_none cells 8 h8]
      rfl
    · obtain ⟨c8, hc8⟩ := pyIndex_some cells 8 (by omega)
      rw [hc8]
      rcases (by omega : cells.length ≤ 9 ∨ 10 ≤ cells.length) with h9 | h9
      · rw [pyIndex_none cells 9 h9]
        rfl
      · obtain ⟨c9, hc9⟩ := pyIndex_some cells 9 (by omega)
        rw [hc9, pyIndex_none cells 10 h10]
        rfl

/-- Rows outside the 6..10 window are processed without an IndexError:
short rows are skipped, rows with at least 11 cells build a record. -/
theorem extractRow_isOk (cells : List TCell)
    (h : cells.length < 6 ∨ 11 ≤ cells.length) :
    (extractRow cells).isOk = true := by
  rcases h with h | h
  · unfold extractRow
    rw [if_pos h]
    rfl
  · have h6' : ¬(cells.length < 6) := by omega
    obtain ⟨c6, hc6⟩ := pyIndex_some cells 6 (by omega)
    obtain ⟨c8, hc8⟩ := pyIndex_some cells 8 (by omega)
    obtain ⟨c9, hc9⟩ := pyIndex_some cells 9 (by omega)
    obtain ⟨c10, hc10⟩ := pyIndex_some cells 10 (by omega)
    unfold extractRow
    rw [if_neg h6', hc6, hc8, hc9, hc10]
    rfl

/-- An IndexError in any selected row aborts the whole extraction. -/
theorem extractRidersGo_error (rows : List DivRow) (w : DivRow) (hw : w ∈ rows)
    (hl6 : 6 ≤ w.cells.length) (hl10 : w.cells.length ≤ 10) :
    extractRidersGo rows = .error () := by
  induction rows with
  | nil => cases hw
  | cons r rs ih =>
    rcases List.mem_cons.mp hw with hwr | hwr
    · subst hwr
      simp only [extractRidersGo]
      rw [extractRow_error w.cells hl6 hl10]
    · have htail := ih hwr
      simp only [extractRidersGo]
      rcases hr : extractRow r.cells with e | v
      · cases e
        rfl
      · cases v with
        | none => exact htail
        | some rd => rw [htail]

/-- Rows that are all short or all wide are processed to completion. -/
theorem extractRidersGo_ok (rows : List DivRow)
    (hall : ∀ r ∈ rows, r.cells.length < 6 ∨ 11 ≤ r.cells.length) :
    (extractRidersGo rows).isOk = true := by
  induction rows with
  | nil => rfl
  | cons r rs ih =>
    have hOk := extractRow_isOk r.cells (hall r (List.mem_cons_self r rs))
    have htail := ih (fun x hx => hall x (List.mem_cons_of_mem r hx))
    simp only [extractRidersGo]
    rcases hE : extractRow r.cells with e | v
    · rw [hE] at hOk
      cases e
      exact absurd hOk (by decide)
    · cases v with
      | none => exact htail
      | some rd =>
        rcases hgo : extractRidersGo rs with e2 | l
        · rw [hgo] at htail
          cases e2
          exact absurd htail (by decide)
        · rfl

/-- Claim C10: _extract_riders guards each selected row only by having at
least 6 result cells but then reads cells 6, 8, 9 and 10, so any selected
row with 6 to 10 cells makes the whole extraction raise an uncaught
IndexError (first conjunct); extraction is total when every selected row
has fewer than 6 or at least 11 cells (second conjunct). -/
theorem claim_C10_index_error :
    (∀ doc : HtmlDoc,
      (∃ r ∈ riderRowsOf doc, 6 ≤ r.cells.length ∧ r.cells.length ≤ 10) →
      extractRiders doc = .error ()) ∧
    (∀ doc : HtmlDoc,
      (∀ r ∈ riderRowsOf doc, r.cells.length < 6 ∨ 11 ≤ r.cells.length) →
      (extractRiders doc).isOk = true) := by
  constructor
  · intro doc hex
    obtain ⟨w, hw, hl6, hl10⟩ := hex
    exact extractRidersGo_error (riderRowsOf doc) w hw hl6 hl10
  · intro doc hall
    exact extractRidersGo_ok (riderRowsOf doc) hall

/-- Claim C10 (witness): one odd row of 7 cells aborts with IndexError;
one even row of 11 cells extracts successfully. -/
theorem claim_C10_witness :
    extractRiders { tablerows := [⟨["tablerow", "odd"], List.replicate 7 ⟨"x", none⟩⟩] } =
      .error () ∧
    (extractRiders
      { tablerows := [⟨["tablerow", "even"], List.replicate 11 ⟨"1", none⟩⟩] }).isOk = true := by
  constructor
  · exact claim_C10_index_error.1 _
      ⟨⟨["tablerow", "odd"], List.replicate 7 ⟨"x", none⟩⟩, by decide, by decide, by decide⟩
  · exact claim_C10_index_error.2 _ (by decide)
